import Mathlib

/-!
Shallow embedding of the viewport-framing engine of the tomtom-mcp repository
(`src/services/map/geometryUtils.ts` and the bounds-selection part of
`src/services/map/dynamicMapService.ts`), together with theorems settling the
frozen claims about its specification.

JavaScript numbers are modelled as real numbers.  The zoom solver can produce
`NaN` and `±Infinity` through `Math.log2` and division by zero, so its value
domain is modelled explicitly by the type `JSNum` below, with operations
mirroring JavaScript `Math.min` / `Math.max` / subtraction / `Math.log2`
semantics (any `NaN` operand propagates).
-/

namespace TomTomMcp

/-- A geographic point, as in the `Point` interface of `geometryUtils.ts`. -/
structure Point where
  lat : ℝ
  lon : ℝ

instance : Inhabited Point := ⟨⟨0, 0⟩⟩

/-- Axis-aligned geographic rectangle, as in the `Bounds` interface. -/
structure Bounds where
  north : ℝ
  south : ℝ
  east : ℝ
  west : ℝ

/-- A JavaScript numeric value: finite real, `±Infinity`, or `NaN`. -/
inductive JSNum where
  | nan : JSNum
  | posInf : JSNum
  | negInf : JSNum
  | fin : ℝ → JSNum

/-- Result record of `calculateEnhancedBounds` (`BoundsResult` in the source):
bounds, `[lon, lat]` center, and zoom (a `JSNum`, since the zoom solver can in
principle produce non-finite values). -/
structure BoundsResult where
  bounds : Bounds
  center : List ℝ
  zoom : JSNum

/-- A JavaScript value in a coordinate position: either a value whose
`parseFloat` yields the given real number, or one parsing to `NaN`
(non-numeric input). -/
inductive JNum where
  | num : ℝ → JNum
  | nanv : JNum

/-- A heterogeneous input item fed to `extractCoordinates`: a bare array,
an object with a `coordinates` array, an object with `lat`/`lon` fields, or
an object with none of the recognised shapes. -/
inductive RawItem where
  | arr : List JNum → RawItem
  | coordsObj : List JNum → RawItem
  | latLonObj : JNum → JNum → RawItem
  | malformed : RawItem

/-- A route input: a bare array of point items, an object with a `points`
array, or anything else (which contributes no points but still counts toward
route presence). -/
inductive RouteItem where
  | arr : List RawItem → RouteItem
  | withPoints : List RawItem → RouteItem
  | other : RouteItem

/-- A polygon input: optional raw `coordinates` ring (entries are `[lon, lat]`
pairs, pushed without validation by the source), and optional circle data
(`type === "circle"` with `center` and `radius`; a radius of `0` is falsy in
JavaScript and disables the circle branch). -/
structure PolygonItem where
  coordinates : Option (List (List ℝ))
  isCircle : Bool
  center : Option Point
  radius : Option ℝ

/-- Mirrors `validateCoordinate` (`geometryUtils.ts` lines 315-330, duplicated
in `dynamicMapService.ts`): `parseFloat` failure or an out-of-range value
throws, modelled as `none`; the latitude range is `[-90, 90]` and the
longitude range `[-180, 180]`, both inclusive.  `isLat = true` corresponds to
the `"latitude"` type tag. -/
noncomputable def validateCoordinate (v : JNum) (isLat : Bool) : Option ℝ :=
  match v with
  | .nanv => none
  | .num x =>
    if isLat then
      if x < -90 ∨ 90 < x then none else some x
    else
      if x < -180 ∨ 180 < x then none else some x

/-- Mirrors `extractCoordinates` (`geometryUtils.ts` lines 272-310): resolve
the item shape to a `(lat, lon)` pair of raw values ([lat, lon] array order
for the first two shapes), then validate both; any failure yields `null`
(modelled `none`) rather than an error. -/
noncomputable def extractCoordinates (item : RawItem) : Option Point :=
  let resolved : Option (JNum × JNum) :=
    match item with
    | .arr (la :: lo :: _) => some (la, lo)
    | .arr _ => none
    | .coordsObj (la :: lo :: _) => some (la, lo)
    | .coordsObj _ => none
    | .latLonObj la lo => some (la, lo)
    | .malformed => none
  match resolved with
  | none => none
  | some (la, lo) =>
    match validateCoordinate la true, validateCoordinate lo false with
    | some lat, some lon => some ⟨lat, lon⟩
    | _, _ => none

/-- JavaScript `Math.min`: `NaN` if either argument is `NaN`, otherwise the
usual minimum on the extended reals. -/
def jsMin : JSNum → JSNum → JSNum
  | .nan, _ => .nan
  | _, .nan => .nan
  | .negInf, _ => .negInf
  | _, .negInf => .negInf
  | .posInf, b => b
  | a, .posInf => a
  | .fin a, .fin b => .fin (min a b)

/-- JavaScript `Math.max`: `NaN` if either argument is `NaN`, otherwise the
usual maximum on the extended reals. -/
def jsMax : JSNum → JSNum → JSNum
  | .nan, _ => .nan
  | _, .nan => .nan
  | .posInf, _ => .posInf
  | _, .posInf => .posInf
  | .negInf, b => b
  | a, .negInf => a
  | .fin a, .fin b => .fin (max a b)

/-- JavaScript subtraction on `JSNum`: `NaN` propagates, and like-signed
infinities cancel to `NaN`. -/
def jsSub : JSNum → JSNum → JSNum
  | .nan, _ => .nan
  | _, .nan => .nan
  | .posInf, .posInf => .nan
  | .posInf, _ => .posInf
  | .negInf, .negInf => .nan
  | .negInf, _ => .negInf
  | _, .posInf => .negInf
  | _, .negInf => .posInf
  | .fin a, .fin b => .fin (a - b)

/-- JavaScript division of two finite numbers: `0 / 0` is `NaN`, a nonzero
numerator over `0` gives a signed infinity, else an exact quotient. -/
noncomputable def jsDiv (a b : ℝ) : JSNum :=
  if b = 0 then
    if a = 0 then .nan
    else if 0 < a then .posInf
    else .negInf
  else .fin (a / b)

/-- JavaScript `Math.log2`: `NaN` on `NaN`, negative reals and `-Infinity`;
`-Infinity` at `0`; `+Infinity` at `+Infinity`; `Real.logb 2` on positive
finite values. -/
noncomputable def jsLog2 : JSNum → JSNum
  | .nan => .nan
  | .posInf => .posInf
  | .negInf => .nan
  | .fin x =>
    if x < 0 then .nan
    else if x = 0 then .negInf
    else .fin (Real.logb 2 x)

/-- The zoom value computed by `calculateOptimalZoom` before the final
clamping step (`geometryUtils.ts` lines 89-114): the more restrictive of the
latitude- and longitude-based `log2` zooms, minus the `zoomOutFactor` of 0.5. -/
noncomputable def unclampedZoom (bounds : Bounds) (mapWidth mapHeight paddingPixels : ℝ) :
    JSNum :=
  let effectiveWidth := mapWidth - paddingPixels * 2
  let effectiveHeight := mapHeight - paddingPixels * 2
  let latSpan := bounds.north - bounds.south
  let lngSpan := bounds.east - bounds.west
  let latZoom := jsLog2 (jsDiv (effectiveHeight * 360) (latSpan * 256))
  let lngZoom := jsLog2 (jsDiv (effectiveWidth * 360) (lngSpan * 256))
  jsSub (jsMin latZoom lngZoom) (.fin 0.5)

/-- Mirrors `calculateOptimalZoom` (`geometryUtils.ts` lines 83-118): the
unclamped zoom clamped by `Math.max(1, Math.min(17, ...))`. -/
noncomputable def calculateOptimalZoom (bounds : Bounds)
    (mapWidth mapHeight paddingPixels : ℝ) : JSNum :=
  jsMax (.fin 1) (jsMin (.fin 17) (unclampedZoom bounds mapWidth mapHeight paddingPixels))

/-- JavaScript `Math.atan2 y x` for finite arguments. -/
noncomputable def jsAtan2 (y x : ℝ) : ℝ :=
  if 0 < x then Real.arctan (y / x)
  else if x < 0 then
    if 0 ≤ y then Real.arctan (y / x) + Real.pi else Real.arctan (y / x) - Real.pi
  else
    if 0 < y then Real.pi / 2
    else if y < 0 then -(Real.pi / 2)
    else 0

/-- Mirrors `generateCirclePoints` (`geometryUtils.ts` lines 40-78): for each
of `numPoints` equally spaced bearings, the spherical destination-point
formula on a sphere of radius 6,371,000 m, converted to and from degrees. -/
noncomputable def generateCirclePoints (centerLat centerLon radiusMeters : ℝ)
    (numPoints : ℕ) : List Point :=
  let earthRadiusMeters : ℝ := 6371000
  let radiusRadians := radiusMeters / earthRadiusMeters
  let centerLatRad := centerLat * Real.pi / 180
  let centerLonRad := centerLon * Real.pi / 180
  (List.range numPoints).map fun (i : ℕ) =>
    let angle := 2 * Real.pi * (i : ℝ) / (numPoints : ℝ)
    let latRad := Real.arcsin (Real.sin centerLatRad * Real.cos radiusRadians +
      Real.cos centerLatRad * Real.sin radiusRadians * Real.cos angle)
    let lonRad := centerLonRad + jsAtan2
      (Real.sin angle * Real.sin radiusRadians * Real.cos centerLatRad)
      (Real.cos radiusRadians - Real.sin centerLatRad * Real.sin latRad)
    ⟨latRad * 180 / Real.pi, lonRad * 180 / Real.pi⟩

/-- Points contributed by one route (`geometryUtils.ts` lines 142-156): a bare
array or a `{points: [...]}` object is iterated through `extractCoordinates`;
anything else contributes nothing. -/
noncomputable def routePoints : RouteItem → List Point
  | .arr pts => pts.filterMap extractCoordinates
  | .withPoints pts => pts.filterMap extractCoordinates
  | .other => []

/-- Points contributed by one polygon (`geometryUtils.ts` lines 159-181):
every `coordinates` entry that is an array of length at least 2 is pushed as
`{lat: coord[1], lon: coord[0]}` with no validation; a circle
(`type === "circle"` with truthy `center` and `radius`) additionally
contributes 64 rasterized points. -/
noncomputable def polygonPoints (p : PolygonItem) : List Point :=
  (match p.coordinates with
    | some coords => coords.filterMap fun c =>
        match c with
        | a :: b :: _ => some ⟨b, a⟩
        | _ => none
    | none => []) ++
  (if p.isCircle then
    match p.center, p.radius with
    | some c, some r => if r ≠ 0 then generateCirclePoints c.lat c.lon r 64 else []
    | _, _ => []
  else [])

/-- The point-collection phase of `calculateEnhancedBounds`
(`geometryUtils.ts` lines 130-181): marker points, then route points, then
polygon/circle points, in input order. -/
noncomputable def collectPoints (markers : List RawItem) (routes : List RouteItem)
    (polygons : List PolygonItem) : List Point :=
  markers.filterMap extractCoordinates ++
    (routes.map routePoints).flatten ++ (polygons.map polygonPoints).flatten

/-- Raw bounds of a non-empty point list `p :: ps`
(`geometryUtils.ts` lines 188-193): componentwise `Math.max`/`Math.min`. -/
noncomputable def rawBounds (p : Point) (ps : List Point) : Bounds :=
  { north := (ps.map Point.lat).foldl max p.lat
    south := (ps.map Point.lat).foldl min p.lat
    east := (ps.map Point.lon).foldl max p.lon
    west := (ps.map Point.lon).foldl min p.lon }

/-- The base buffer selection of `calculateEnhancedBounds`
(`geometryUtils.ts` lines 204-220), keyed on the marker count and the larger
span. -/
noncomputable def bufferBase (markerCount : ℕ) (maxSpan : ℝ) : ℝ :=
  if markerCount = 1 then maxSpan * 0.5
  else if maxSpan < 0.001 then 0.05
  else if maxSpan < 0.01 then maxSpan * 0.8
  else if maxSpan < 0.1 then maxSpan * 0.6
  else maxSpan * 0.4

/-- The full buffer computation of `calculateEnhancedBounds`
(`geometryUtils.ts` lines 201-247): base buffer, route multiplier (1.8 with
more than one marker, else 1.5), polygon multiplier 1.3, density multiplier
1.4 above three markers, and finally the `maxSpan * 0.15` minimum buffer. -/
noncomputable def bufferDegrees (markerCount : ℕ) (hasRoutes hasPolygons : Bool)
    (maxSpan : ℝ) : ℝ :=
  let b1 := bufferBase markerCount maxSpan
  let b2 := if hasRoutes then (if 1 < markerCount then b1 * 1.8 else b1 * 1.5) else b1
  let b3 := if hasPolygons then b2 * 1.3 else b2
  let b4 := if 3 < markerCount then b3 * 1.4 else b3
  max b4 (maxSpan * 0.15)

/-- Mirrors `calculateEnhancedBounds` (`geometryUtils.ts` lines 123-267):
collect points; throw `"No valid coordinates found to calculate bounds"` if
none; otherwise buffer the raw bounds, clamp to the world range, and return
bounds, `[lon, lat]` center and the optimal zoom (the source calls
`calculateOptimalZoom` with its default 80-pixel padding). -/
noncomputable def calculateEnhancedBounds (markers : List RawItem) (routes : List RouteItem)
    (mapWidth mapHeight : ℝ) (polygons : List PolygonItem) :
    Except String BoundsResult :=
  match collectPoints markers routes polygons with
  | [] => .error "No valid coordinates found to calculate bounds"
  | p :: ps =>
    let bounds := rawBounds p ps
    let latSpan := bounds.north - bounds.south
    let lngSpan := bounds.east - bounds.west
    let maxSpan := max latSpan lngSpan
    let markerCount := markers.length
    let bufferDeg := bufferDegrees markerCount (!routes.isEmpty) (!polygons.isEmpty) maxSpan
    let bufferedBounds : Bounds :=
      { north := min 90 (bounds.north + bufferDeg)
        south := max (-90) (bounds.south - bufferDeg)
        east := min 180 (bounds.east + bufferDeg)
        west := max (-180) (bounds.west - bufferDeg) }
    let center := [(bufferedBounds.west + bufferedBounds.east) / 2,
      (bufferedBounds.south + bufferedBounds.north) / 2]
    .ok ⟨bufferedBounds, center,
      calculateOptimalZoom bufferedBounds mapWidth mapHeight 80⟩

/-- The explicit-bbox branch of `renderMapWithMapLibre`
(`dynamicMapService.ts` lines 207-235): validate the four components with the
service's `validateCoordinate`, require `west < east` and `south < north`,
then run the two corners as a 2-marker feature set through
`calculateEnhancedBounds` with no routes and no polygons.  Any throw is
modelled as `.error`. -/
noncomputable def bboxPath (b : List ℝ) (width height : ℝ) : Except String BoundsResult :=
  match b with
  | [w0, s0, e0, n0] =>
    match validateCoordinate (.num w0) false, validateCoordinate (.num s0) true,
        validateCoordinate (.num e0) false, validateCoordinate (.num n0) true with
    | some west, some south, some east, some north =>
      if east ≤ west ∨ north ≤ south then
        .error "Invalid bounds: west must be < east and south must be < north"
      else
        calculateEnhancedBounds
          [.latLonObj (.num south) (.num west), .latLonObj (.num north) (.num east)]
          [] width height []
    | _, _, _, _ => .error "invalid bbox coordinate"
  | _ => .error "invalid bbox coordinate"

/-- The bounds-selection logic of `renderMapWithMapLibre`
(`dynamicMapService.ts` lines 203-248): a present 4-element `bbox` is tried
first; on any failure inside that `try` block the code logs a warning and
falls back to computing bounds from the markers, routes and polygons;
without a 4-element bbox the feature-driven path runs directly. -/
noncomputable def computeViewport (bbox : Option (List ℝ)) (markers : List RawItem)
    (routes : List RouteItem) (polygons : List PolygonItem) (width height : ℝ) :
    Except String BoundsResult :=
  match bbox with
  | some b =>
    if b.length = 4 then
      match bboxPath b width height with
      | .ok r => .ok r
      | .error _ => calculateEnhancedBounds markers routes width height polygons
    else calculateEnhancedBounds markers routes width height polygons
  | none => calculateEnhancedBounds markers routes width height polygons

/-- Observer: the north edge of a successful bounds computation. -/
def viewportNorth : Except String BoundsResult → Option ℝ
  | .ok r => some r.bounds.north
  | .error _ => none

/-- The padding table exactly as the specification states it (spec section 4.4
and claim C1), for comparison against the implementation `bufferDegrees`:
base `span × 0.3` for a single marker, fixed `0.01` below `0.001°`,
`span × 0.5` below `0.01°`, `span × 0.25` otherwise; then `×1.5` when routes
are present with more than one marker and `×1.2` above three markers, with no
other adjustments. -/
noncomputable def specBufferDegrees (markerCount : ℕ) (hasRoutes : Bool) (maxSpan : ℝ) : ℝ :=
  let base :=
    if markerCount = 1 then maxSpan * 0.3
    else if maxSpan < 0.001 then 0.01
    else if maxSpan < 0.01 then maxSpan * 0.5
    else maxSpan * 0.25
  let b2 := if hasRoutes ∧ 1 < markerCount then base * 1.5 else base
  if 3 < markerCount then b2 * 1.2 else b2

/-!  Helper lemmas about `List.foldl max` / `List.foldl min`, used for the
raw-bounds containment results. -/

lemma le_foldl_max (a : ℝ) (l : List ℝ) : a ≤ l.foldl max a := by
  induction l generalizing a with
  | nil => exact le_refl a
  | cons b t ih => exact le_trans (le_max_left a b) (ih (max a b))

lemma mem_le_foldl_max {x : ℝ} {l : List ℝ} (hx : x ∈ l) (a : ℝ) : x ≤ l.foldl max a := by
  induction l generalizing a with
  | nil => cases hx
  | cons b t ih =>
    simp only [List.foldl_cons]
    rcases List.mem_cons.mp hx with h | h
    · subst h
      exact le_trans (le_max_right a x) (le_foldl_max (max a x) t)
    · exact ih h (max a b)

lemma foldl_max_le {c a : ℝ} {l : List ℝ} (ha : a ≤ c) (h : ∀ x ∈ l, x ≤ c) :
    l.foldl max a ≤ c := by
  induction l generalizing a with
  | nil => exact ha
  | cons b t ih =>
    exact ih (max_le ha (h b (List.mem_cons_self b t))) fun x hx =>
      h x (List.mem_cons_of_mem b hx)

lemma foldl_min_le (a : ℝ) (l : List ℝ) : l.foldl min a ≤ a := by
  induction l generalizing a with
  | nil => exact le_refl a
  | cons b t ih => exact le_trans (ih (min a b)) (min_le_left a b)

lemma foldl_min_le_mem {x : ℝ} {l : List ℝ} (hx : x ∈ l) (a : ℝ) : l.foldl min a ≤ x := by
  induction l generalizing a with
  | nil => cases hx
  | cons b t ih =>
    simp only [List.foldl_cons]
    rcases List.mem_cons.mp hx with h | h
    · subst h
      exact le_trans (foldl_min_le (min a x) t) (min_le_right a x)
    · exact ih h (min a b)

lemma le_foldl_min {c a : ℝ} {l : List ℝ} (ha : c ≤ a) (h : ∀ x ∈ l, c ≤ x) :
    c ≤ l.foldl min a := by
  induction l generalizing a with
  | nil => exact ha
  | cons b t ih =>
    exact ih (le_min ha (h b (List.mem_cons_self b t))) fun x hx =>
      h x (List.mem_cons_of_mem b hx)

/-- The final buffer is at least the `maxSpan * 0.15` minimum buffer. -/
lemma minBuffer_le_bufferDegrees (markerCount : ℕ) (hasRoutes hasPolygons : Bool)
    (maxSpan : ℝ) : maxSpan * 0.15 ≤ bufferDegrees markerCount hasRoutes hasPolygons maxSpan :=
  le_max_right _ _

/-- Evaluation of the whole pipeline on a single in-range marker: the bounds
collapse to the marker, the buffer is zero (single-marker branch at zero
span), and the zoom clamps to 17 through the `+Infinity` zoom terms. -/
lemma calcEB_singleMarker :
    calculateEnhancedBounds [.latLonObj (.num 52.37) (.num 4.89)] [] 800 600 [] =
      .ok ⟨⟨52.37, 52.37, 4.89, 4.89⟩, [4.89, 52.37], .fin 17⟩ := by
  have hc : collectPoints [.latLonObj (.num 52.37) (.num 4.89)] [] [] =
      [(⟨52.37, 4.89⟩ : Point)] := by
    norm_num [collectPoints, extractCoordinates, validateCoordinate, List.filterMap_cons]
  simp only [calculateEnhancedBounds, hc]
  norm_num [rawBounds, bufferDegrees, bufferBase, calculateOptimalZoom, unclampedZoom,
    jsDiv, jsLog2, jsMin, jsMax, jsSub, min_def, max_def]

/-- C1 counterexample: for two markers spanning one degree (span ≥ 0.01°) with
no routes and no polygons, the implementation chooses `span × 0.4` where the
spec's table (claim C1) prescribes `span × 0.25`. -/
theorem c1_counterexample :
    bufferDegrees 2 false false 1 = 0.4 ∧ specBufferDegrees 2 false 1 = 0.25 ∧
      (0.4 : ℝ) ≠ 0.25 := by
  refine ⟨?_, ?_, by norm_num⟩
  · norm_num [bufferDegrees, bufferBase, max_def]
  · norm_num [specBufferDegrees]

set_option maxHeartbeats 1000000 in
/-- C1 (amended): the padding actually chosen is
`max(base × routeFactor × polygonFactor × densityFactor, span × 0.15)` where
base is `span × 0.5` for a single marker, `0.05` below `0.001°`, `span × 0.8`
below `0.01°`, `span × 0.6` below `0.1°`, `span × 0.4` otherwise; the route
factor is 1.8 with more than one marker and 1.5 otherwise, the polygon factor
is 1.3, and the density factor above three markers is 1.4. -/
theorem c1_amended (markerCount : ℕ) (hasRoutes hasPolygons : Bool) (maxSpan : ℝ) :
    bufferDegrees markerCount hasRoutes hasPolygons maxSpan =
      max ((if markerCount = 1 then maxSpan * 0.5
          else if maxSpan < 0.001 then 0.05
          else if maxSpan < 0.01 then maxSpan * 0.8
          else if maxSpan < 0.1 then maxSpan * 0.6
          else maxSpan * 0.4) *
        ((if hasRoutes then if 1 < markerCount then 1.8 else 1.5 else 1) *
          ((if hasPolygons then 1.3 else 1) * (if 3 < markerCount then 1.4 else 1))))
        (maxSpan * 0.15) := by
  cases hasRoutes <;> cases hasPolygons <;>
    simp only [bufferDegrees, bufferBase, Bool.false_eq_true, if_true, if_false] <;>
    split_ifs <;> ring_nf

/-- C5 counterexample: with no features at all, zero points are collected and
the raised message is `"No valid coordinates found to calculate bounds"`,
which is not the spec's quoted surface message
`"no valid coordinates found"`. -/
theorem c5_counterexample :
    calculateEnhancedBounds [] [] 800 600 [] =
        .error "No valid coordinates found to calculate bounds" ∧
      "No valid coordinates found to calculate bounds" ≠ "no valid coordinates found" := by
  refine ⟨?_, by decide⟩
  simp [calculateEnhancedBounds, collectPoints]

/-- C5 (amended): the bounds computation fails — with the exact message
`"No valid coordinates found to calculate bounds"` — exactly when zero valid
points are collected; with at least one collected point no error is raised
and no default viewport is synthesized in the empty case. -/
theorem c5_amended (markers : List RawItem) (routes : List RouteItem)
    (polygons : List PolygonItem) (w h : ℝ) :
    calculateEnhancedBounds markers routes w h polygons =
        .error "No valid coordinates found to calculate bounds" ↔
      collectPoints markers routes polygons = [] := by
  cases hc : collectPoints markers routes polygons with
  | nil => simp [calculateEnhancedBounds, hc]
  | cons p ps => simp [calculateEnhancedBounds, hc]

/-- C9 counterexample: a single marker yields raw bounds with `west = east`
(hence `west ≥ east`), yet no `DegenerateBounds` error is raised — the
calculator returns a successful result. -/
theorem c9_counterexample :
    (rawBounds ⟨52.37, 4.89⟩ []).east ≤ (rawBounds ⟨52.37, 4.89⟩ []).west ∧
      collectPoints [.latLonObj (.num 52.37) (.num 4.89)] [] [] = [⟨52.37, 4.89⟩] ∧
      calculateEnhancedBounds [.latLonObj (.num 52.37) (.num 4.89)] [] 800 600 [] =
        .ok ⟨⟨52.37, 52.37, 4.89, 4.89⟩, [4.89, 52.37], .fin 17⟩ := by
  refine ⟨by norm_num [rawBounds], ?_, calcEB_singleMarker⟩
  norm_num [collectPoints, extractCoordinates, validateCoordinate, List.filterMap_cons]

/-- C9 (amended): the calculator contains no degenerate-bounds check at all:
whenever at least one point is collected it returns a successful result, even
when the raw bounds satisfy `west ≥ east` or `south ≥ north`. -/
theorem c9_amended (markers : List RawItem) (routes : List RouteItem)
    (polygons : List PolygonItem) (w h : ℝ) (p : Point) (ps : List Point)
    (hc : collectPoints markers routes polygons = p :: ps) :
    ∃ r, calculateEnhancedBounds markers routes w h polygons = .ok r := by
  simp only [calculateEnhancedBounds, hc]
  exact ⟨_, rfl⟩

/-- Witness for C9: the single-marker input instantiates the amended claim. -/
theorem c9_witness :
    collectPoints [.latLonObj (.num 52.37) (.num 4.89)] [] [] = [(⟨52.37, 4.89⟩ : Point)] ∧
      ∃ r, calculateEnhancedBounds [.latLonObj (.num 52.37) (.num 4.89)] [] 800 600 [] =
        .ok r := by
  have hc : collectPoints [.latLonObj (.num 52.37) (.num 4.89)] [] [] =
      [(⟨52.37, 4.89⟩ : Point)] := by
    norm_num [collectPoints, extractCoordinates, validateCoordinate, List.filterMap_cons]
  exact ⟨hc, c9_amended _ _ _ 800 600 _ _ hc⟩

/-- C10: the branch-selecting marker count is the length of the `markers`
array including invalid markers.  With one valid and one invalid marker the
single-marker branch is not taken (the padding is the fixed 0.05 of the
sub-0.001° branch, not the single-marker `span × 0.5 = 0`); with one valid
and three invalid markers the more-than-three-markers multiplier 1.4 is still
applied (padding 0.07). -/
theorem c10_markerCountIncludesInvalid :
    viewportNorth (calculateEnhancedBounds
        [.latLonObj (.num 52.37) (.num 4.89), .latLonObj (.num 200) (.num 4.89)]
        [] 800 600 []) = some (52.37 + 0.05) ∧
      collectPoints [.latLonObj (.num 52.37) (.num 4.89), .latLonObj (.num 200) (.num 4.89)]
        [] [] = [⟨52.37, 4.89⟩] ∧
      viewportNorth (calculateEnhancedBounds
        [.latLonObj (.num 52.37) (.num 4.89), .latLonObj (.num 200) (.num 4.89),
          .latLonObj (.num 200) (.num 4.89), .latLonObj (.num 200) (.num 4.89)]
        [] 800 600 []) = some (52.37 + 0.07) ∧
      collectPoints [.latLonObj (.num 52.37) (.num 4.89), .latLonObj (.num 200) (.num 4.89),
          .latLonObj (.num 200) (.num 4.89), .latLonObj (.num 200) (.num 4.89)]
        [] [] = [⟨52.37, 4.89⟩] := by
  have hc2 : collectPoints
      [.latLonObj (.num 52.37) (.num 4.89), .latLonObj (.num 200) (.num 4.89)] [] [] =
      [(⟨52.37, 4.89⟩ : Point)] := by
    norm_num [collectPoints, extractCoordinates, validateCoordinate, List.filterMap_cons]
  have hc4 : collectPoints
      [.latLonObj (.num 52.37) (.num 4.89), .latLonObj (.num 200) (.num 4.89),
        .latLonObj (.num 200) (.num 4.89), .latLonObj (.num 200) (.num 4.89)] [] [] =
      [(⟨52.37, 4.89⟩ : Point)] := by
    norm_num [collectPoints, extractCoordinates, validateCoordinate, List.filterMap_cons]
  refine ⟨?_, hc2, ?_, hc4⟩
  · simp only [calculateEnhancedBounds, hc2, viewportNorth]
    norm_num [rawBounds, bufferDegrees, bufferBase, min_def, max_def]
  · simp only [calculateEnhancedBounds, hc4, viewportNorth]
    norm_num [rawBounds, bufferDegrees, bufferBase, min_def, max_def]

/-!  Reduction helpers for the `JSNum` pipeline of the zoom solver. -/

lemma jsDiv_zero_of_pos {a : ℝ} (ha : 0 < a) : jsDiv a 0 = .posInf := by
  unfold jsDiv
  rw [if_pos rfl, if_neg (ne_of_gt ha), if_pos ha]

lemma jsDiv_of_ne {a b : ℝ} (hb : b ≠ 0) : jsDiv a b = .fin (a / b) := by
  unfold jsDiv
  rw [if_neg hb]

lemma jsLog2_fin_of_pos {x : ℝ} (hx : 0 < x) : jsLog2 (.fin x) = .fin (Real.logb 2 x) := by
  simp only [jsLog2]
  rw [if_neg (not_lt.mpr hx.le), if_neg (ne_of_gt hx)]

/-- Either zoom term of the solver is `+Infinity` (zero span) or finite, as
long as the numerator is positive and the denominator nonnegative. -/
lemma jsLog2_jsDiv_cases {num den : ℝ} (hnum : 0 < num) (hden : 0 ≤ den) :
    jsLog2 (jsDiv num den) = .posInf ∨ ∃ L, jsLog2 (jsDiv num den) = .fin L := by
  rcases eq_or_lt_of_le hden with h0 | hpos
  · left
    rw [← h0, jsDiv_zero_of_pos hnum]
    rfl
  · right
    exact ⟨Real.logb 2 (num / den),
      by rw [jsDiv_of_ne (ne_of_gt hpos), jsLog2_fin_of_pos (div_pos hnum hpos)]⟩

/-- C2 counterexample: at the schema-valid canvas width 100 (within 100-2048)
with the default 80-pixel padding, the effective width is negative, `log2` of
a negative value is `NaN`, and the `NaN` propagates through `Math.min` and
the clamp: the solver returns `NaN`, not a value in [1, 17]. -/
theorem c2_counterexample :
    calculateOptimalZoom ⟨52.4, 52.35, 4.95, 4.85⟩ 100 600 80 = JSNum.nan := by
  norm_num [calculateOptimalZoom, unclampedZoom, jsDiv, jsLog2, jsMin, jsMax, jsSub]

/-- A zoom term with a strictly negative numerator is `NaN`: a positive
denominator gives `log2` of a negative quotient, and a zero denominator gives
`log2(-Infinity)`. -/
lemma jsLog2_jsDiv_nan {num den : ℝ} (hnum : num < 0) (hden : 0 ≤ den) :
    jsLog2 (jsDiv num den) = .nan := by
  rcases eq_or_lt_of_le hden with h0 | hpos
  · rw [← h0]
    unfold jsDiv
    rw [if_pos rfl, if_neg (ne_of_lt hnum), if_neg (not_lt.mpr hnum.le)]
    rfl
  · rw [jsDiv_of_ne (ne_of_gt hpos)]
    simp only [jsLog2]
    rw [if_pos (div_neg_of_neg_of_pos hnum hpos)]

lemma jsMin_nan_left (a : JSNum) : jsMin .nan a = .nan := by
  cases a <;> rfl

lemma jsMin_nan_right (a : JSNum) : jsMin a .nan = .nan := by
  cases a <;> rfl

/-- C2 (amended): for schema-valid canvas dimensions (100-2048) with the
default 80-pixel padding and bounds with nonnegative spans: when both
dimensions strictly exceed 160 px (positive effective dimensions) the solver
returns a finite zoom in [1, 17], zero spans being absorbed as `+Infinity`
terms; when either dimension is strictly below 160 px (negative effective
dimension) the solver returns `NaN`. -/
theorem c2_amended (bounds : Bounds) (w h : ℝ) (hw1 : 100 ≤ w) (hw2 : w ≤ 2048)
    (hh1 : 100 ≤ h) (hh2 : h ≤ 2048) (hns : bounds.south ≤ bounds.north)
    (hwe : bounds.west ≤ bounds.east) :
    (160 < w → 160 < h →
      ∃ z : ℝ, calculateOptimalZoom bounds w h 80 = .fin z ∧ 1 ≤ z ∧ z ≤ 17) ∧
    (w < 160 ∨ h < 160 → calculateOptimalZoom bounds w h 80 = .nan) := by
  constructor
  · intro hw160 hh160
    have hnumh : (0:ℝ) < (h - 80 * 2) * 360 := by
      have : (0:ℝ) < h - 80 * 2 := by linarith
      positivity
    have hnumw : (0:ℝ) < (w - 80 * 2) * 360 := by
      have : (0:ℝ) < w - 80 * 2 := by linarith
      positivity
    have hdenh : (0:ℝ) ≤ (bounds.north - bounds.south) * 256 := by
      have : (0:ℝ) ≤ bounds.north - bounds.south := by linarith
      positivity
    have hdenw : (0:ℝ) ≤ (bounds.east - bounds.west) * 256 := by
      have : (0:ℝ) ≤ bounds.east - bounds.west := by linarith
      positivity
    simp only [calculateOptimalZoom, unclampedZoom]
    rcases jsLog2_jsDiv_cases hnumh hdenh with hlat | ⟨L1, hlat⟩ <;>
      rcases jsLog2_jsDiv_cases hnumw hdenw with hlng | ⟨L2, hlng⟩ <;>
      rw [hlat, hlng]
    · exact ⟨max 1 17, rfl, by norm_num, by norm_num⟩
    · refine ⟨max 1 (min 17 (L2 - 0.5)), rfl, le_max_left _ _, ?_⟩
      exact max_le (by norm_num) (min_le_left _ _)
    · refine ⟨max 1 (min 17 (L1 - 0.5)), rfl, le_max_left _ _, ?_⟩
      exact max_le (by norm_num) (min_le_left _ _)
    · refine ⟨max 1 (min 17 (min L1 L2 - 0.5)), rfl, le_max_left _ _, ?_⟩
      exact max_le (by norm_num) (min_le_left _ _)
  · intro hlt
    simp only [calculateOptimalZoom, unclampedZoom]
    rcases hlt with hw160 | hh160
    · have hlngnan :
          jsLog2 (jsDiv ((w - 80 * 2) * 360) ((bounds.east - bounds.west) * 256)) = .nan :=
        jsLog2_jsDiv_nan (mul_neg_of_neg_of_pos (by linarith) (by norm_num))
          (mul_nonneg (by linarith) (by norm_num))
      rw [hlngnan, jsMin_nan_right]
      rfl
    · have hlatnan :
          jsLog2 (jsDiv ((h - 80 * 2) * 360) ((bounds.north - bounds.south) * 256)) = .nan :=
        jsLog2_jsDiv_nan (mul_neg_of_neg_of_pos (by linarith) (by norm_num))
          (mul_nonneg (by linarith) (by norm_num))
      rw [hlatnan, jsMin_nan_left]
      rfl

/-- Witness for C2: canvas 800x600 exercises the in-range guarantee, and the
schema-minimal width 100 exercises the `NaN` regime, both through the amended
claim. -/
theorem c2_witness :
    (∃ z : ℝ, calculateOptimalZoom ⟨1, 0, 1, 0⟩ 800 600 80 = .fin z ∧ 1 ≤ z ∧ z ≤ 17) ∧
      calculateOptimalZoom ⟨1, 0, 1, 0⟩ 100 600 80 = .nan := by
  constructor
  · exact (c2_amended ⟨1, 0, 1, 0⟩ 800 600 (by norm_num) (by norm_num) (by norm_num)
      (by norm_num) (by norm_num) (by norm_num)).1 (by norm_num) (by norm_num)
  · exact (c2_amended ⟨1, 0, 1, 0⟩ 100 600 (by norm_num) (by norm_num) (by norm_num)
      (by norm_num) (by norm_num) (by norm_num)).2 (Or.inl (by norm_num))

/-- C3 counterexample: for bounds spanning 45 degrees on a 672x672 canvas
(effective dimension 512), both `log2` terms equal 4, the code returns
`4 - 0.5 = 3.5` before clamping, and the spec's `min(latZoom, lonZoom) - 0.1`
formula predicts `3.9 ≠ 3.5`. -/
theorem c3_counterexample :
    unclampedZoom ⟨45, 0, 45, 0⟩ 672 672 80 = .fin 3.5 ∧
      (3.5 : ℝ) ≠
        min (Real.logb 2 (((672:ℝ) - 80 * 2) * 360 / ((45 - 0) * 256)))
          (Real.logb 2 (((672:ℝ) - 80 * 2) * 360 / ((45 - 0) * 256))) - 0.1 := by
  have h16 : ((672:ℝ) - 80 * 2) * 360 / ((45 - 0) * 256) = 16 := by norm_num
  have hlog : Real.logb 2 (16:ℝ) = 4 := by
    rw [show (16:ℝ) = 2 ^ (4:ℕ) by norm_num, Real.logb_pow,
      Real.logb_self_eq_one (by norm_num)]
    norm_num
  constructor
  · simp only [unclampedZoom]
    rw [show ((45:ℝ) - 0) * 256 = 11520 by norm_num]
    rw [jsDiv_of_ne (by norm_num), jsLog2_fin_of_pos (by norm_num)]
    rw [show ((672:ℝ) - 80 * 2) * 360 / 11520 = 16 by norm_num, hlog]
    simp only [jsMin, jsSub, min_self]
    norm_num
  · rw [h16, hlog]
    norm_num

/-- C3 (amended): for bounds with positive spans and effective pixel
dimensions positive, the zoom before clamping is
`min(latZoom, lonZoom) - 0.5` (the source's `zoomOutFactor` is 0.5, not 0.1),
with `latZoom`/`lonZoom` given by the spec's `log2` formulas. -/
theorem c3_amended (bounds : Bounds) (w h pad : ℝ)
    (hlat : 0 < bounds.north - bounds.south) (hlng : 0 < bounds.east - bounds.west)
    (hw : 0 < w - pad * 2) (hh : 0 < h - pad * 2) :
    unclampedZoom bounds w h pad =
      .fin (min (Real.logb 2 ((h - pad * 2) * 360 / ((bounds.north - bounds.south) * 256)))
        (Real.logb 2 ((w - pad * 2) * 360 / ((bounds.east - bounds.west) * 256))) - 0.5) := by
  simp only [unclampedZoom]
  rw [jsDiv_of_ne (ne_of_gt (mul_pos hlat (by norm_num))),
    jsDiv_of_ne (ne_of_gt (mul_pos hlng (by norm_num))),
    jsLog2_fin_of_pos (div_pos (mul_pos hh (by norm_num)) (mul_pos hlat (by norm_num))),
    jsLog2_fin_of_pos (div_pos (mul_pos hw (by norm_num)) (mul_pos hlng (by norm_num)))]
  rfl

/-- Witness for C3: concrete bounds with positive spans instantiate the
amended claim. -/
theorem c3_witness :
    unclampedZoom ⟨45, 0, 45, 0⟩ 672 672 80 =
      .fin (min (Real.logb 2 (((672:ℝ) - 80 * 2) * 360 / (((45:ℝ) - 0) * 256)))
        (Real.logb 2 (((672:ℝ) - 80 * 2) * 360 / (((45:ℝ) - 0) * 256))) - 0.5) :=
  c3_amended ⟨45, 0, 45, 0⟩ 672 672 80 (by norm_num) (by norm_num) (by norm_num) (by norm_num)

/-!  Symbolic evaluation helpers for in-range coordinates. -/

lemma validateCoordinate_lat {x : ℝ} (h1 : -90 ≤ x) (h2 : x ≤ 90) :
    validateCoordinate (.num x) true = some x := by
  simp [validateCoordinate, not_lt.2 h1, not_lt.2 h2]

lemma validateCoordinate_lon {x : ℝ} (h1 : -180 ≤ x) (h2 : x ≤ 180) :
    validateCoordinate (.num x) false = some x := by
  simp [validateCoordinate, not_lt.2 h1, not_lt.2 h2]

lemma extractCoordinates_inRange {la lo : ℝ} (h1 : -90 ≤ la) (h2 : la ≤ 90)
    (h3 : -180 ≤ lo) (h4 : lo ≤ 180) :
    extractCoordinates (.latLonObj (.num la) (.num lo)) = some ⟨la, lo⟩ := by
  simp only [extractCoordinates]
  rw [validateCoordinate_lat h1 h2, validateCoordinate_lon h3 h4]

/-- C4 counterexample: a 4-element bbox failing the ordering check
(`west = 5 ≥ east = 4`) does not surface an error — the failure is caught and
the viewport is computed from the markers instead, returning a successful
result. -/
theorem c4_counterexample :
    computeViewport (some [5, 52, 4, 53]) [.latLonObj (.num 52.37) (.num 4.89)] [] [] 800 600 =
      .ok ⟨⟨52.37, 52.37, 4.89, 4.89⟩, [4.89, 52.37], .fin 17⟩ := by
  have hb : bboxPath [5, 52, 4, 53] 800 600 =
      .error "Invalid bounds: west must be < east and south must be < north" := by
    norm_num [bboxPath, validateCoordinate]
  simp only [computeViewport]
  rw [if_pos (by simp : ([(5:ℝ), 52, 4, 53]).length = 4), hb]
  exact calcEB_singleMarker

/-- C4 (amended): when the explicit bbox path throws (ordering or range
violation), the error is caught — not propagated — and the viewport is
computed from the markers, routes and polygons via the feature-driven
fallback. -/
theorem c4_amended (b : List ℝ) (markers : List RawItem) (routes : List RouteItem)
    (polygons : List PolygonItem) (w h : ℝ) (msg : String)
    (hlen : b.length = 4) (herr : bboxPath b w h = .error msg) :
    computeViewport (some b) markers routes polygons w h =
      calculateEnhancedBounds markers routes w h polygons := by
  simp only [computeViewport]
  rw [if_pos hlen, herr]

/-- Witness for C4: the mis-ordered bbox `[5, 52, 4, 53]` instantiates the
amended claim. -/
theorem c4_witness :
    ([(5:ℝ), 52, 4, 53]).length = 4 ∧
      bboxPath [5, 52, 4, 53] 800 600 =
        .error "Invalid bounds: west must be < east and south must be < north" ∧
      computeViewport (some [5, 52, 4, 53]) [.latLonObj (.num 52.37) (.num 4.89)] [] []
          800 600 =
        calculateEnhancedBounds [.latLonObj (.num 52.37) (.num 4.89)] [] 800 600 [] := by
  have hlen : ([(5:ℝ), 52, 4, 53]).length = 4 := by simp
  have herr : bboxPath [5, 52, 4, 53] 800 600 =
      .error "Invalid bounds: west must be < east and south must be < north" := by
    norm_num [bboxPath, validateCoordinate]
  exact ⟨hlen, herr, c4_amended _ _ _ _ _ _ _ hlen herr⟩

/-- C6 counterexample: a polygon ring vertex is pushed without validation, so
a vertex with latitude 200 makes the raw north 200 while the padded bounds
clamp to 90 — the padded bounds do not contain the raw bounds. -/
theorem c6_counterexample :
    collectPoints [] [] [⟨some [[0, 200], [1, 0]], false, none, none⟩] =
        [⟨200, 0⟩, ⟨0, 1⟩] ∧
      viewportNorth (calculateEnhancedBounds [] [] 800 600
        [⟨some [[0, 200], [1, 0]], false, none, none⟩]) = some 90 ∧
      (rawBounds ⟨200, 0⟩ [⟨0, 1⟩]).north = 200 ∧ (90:ℝ) < 200 := by
  have hc : collectPoints [] [] [⟨some [[0, 200], [1, 0]], false, none, none⟩] =
      [(⟨200, 0⟩ : Point), ⟨0, 1⟩] := by
    norm_num [collectPoints, polygonPoints, List.filterMap_cons]
  refine ⟨hc, ?_, by norm_num [rawBounds, max_def], by norm_num⟩
  simp only [calculateEnhancedBounds, hc, viewportNorth]
  norm_num [rawBounds, bufferDegrees, bufferBase, min_def, max_def]

/-- C6 (amended): when every collected point lies inside the valid
latitude/longitude ranges, the raw bounds contain every collected point and
the padded bounds returned by the calculator contain the raw bounds. -/
theorem c6_amended (markers : List RawItem) (routes : List RouteItem)
    (polygons : List PolygonItem) (w h : ℝ) (p : Point) (ps : List Point)
    (hc : collectPoints markers routes polygons = p :: ps)
    (hv : ∀ q ∈ p :: ps, -90 ≤ q.lat ∧ q.lat ≤ 90 ∧ -180 ≤ q.lon ∧ q.lon ≤ 180) :
    (∀ q ∈ p :: ps,
      (rawBounds p ps).south ≤ q.lat ∧ q.lat ≤ (rawBounds p ps).north ∧
        (rawBounds p ps).west ≤ q.lon ∧ q.lon ≤ (rawBounds p ps).east) ∧
      ∃ r, calculateEnhancedBounds markers routes w h polygons = .ok r ∧
        r.bounds.south ≤ (rawBounds p ps).south ∧
        (rawBounds p ps).north ≤ r.bounds.north ∧
        r.bounds.west ≤ (rawBounds p ps).west ∧
        (rawBounds p ps).east ≤ r.bounds.east := by
  have hcont : ∀ q ∈ p :: ps,
      (rawBounds p ps).south ≤ q.lat ∧ q.lat ≤ (rawBounds p ps).north ∧
        (rawBounds p ps).west ≤ q.lon ∧ q.lon ≤ (rawBounds p ps).east := by
    intro q hq
    rcases List.mem_cons.mp hq with rfl | hq2
    · exact ⟨foldl_min_le q.lat (ps.map Point.lat), le_foldl_max q.lat (ps.map Point.lat),
        foldl_min_le q.lon (ps.map Point.lon), le_foldl_max q.lon (ps.map Point.lon)⟩
    · exact ⟨foldl_min_le_mem (List.mem_map_of_mem Point.lat hq2) p.lat,
        mem_le_foldl_max (List.mem_map_of_mem Point.lat hq2) p.lat,
        foldl_min_le_mem (List.mem_map_of_mem Point.lon hq2) p.lon,
        mem_le_foldl_max (List.mem_map_of_mem Point.lon hq2) p.lon⟩
  refine ⟨hcont, ?_⟩
  have hn : (rawBounds p ps).north ≤ 90 := by
    apply foldl_max_le (hv p (List.mem_cons_self p ps)).2.1
    intro x hx
    obtain ⟨q, hq, rfl⟩ := List.mem_map.mp hx
    exact (hv q (List.mem_cons_of_mem p hq)).2.1
  have hs : (-90:ℝ) ≤ (rawBounds p ps).south := by
    apply le_foldl_min (hv p (List.mem_cons_self p ps)).1
    intro x hx
    obtain ⟨q, hq, rfl⟩ := List.mem_map.mp hx
    exact (hv q (List.mem_cons_of_mem p hq)).1
  have he : (rawBounds p ps).east ≤ 180 := by
    apply foldl_max_le (hv p (List.mem_cons_self p ps)).2.2.2
    intro x hx
    obtain ⟨q, hq, rfl⟩ := List.mem_map.mp hx
    exact (hv q (List.mem_cons_of_mem p hq)).2.2.2
  have hw2 : (-180:ℝ) ≤ (rawBounds p ps).west := by
    apply le_foldl_min (hv p (List.mem_cons_self p ps)).2.2.1
    intro x hx
    obtain ⟨q, hq, rfl⟩ := List.mem_map.mp hx
    exact (hv q (List.mem_cons_of_mem p hq)).2.2.1
  have hspan0 : 0 ≤ max ((rawBounds p ps).north - (rawBounds p ps).south)
      ((rawBounds p ps).east - (rawBounds p ps).west) := by
    have h1 := (hcont p (List.mem_cons_self p ps)).1
    have h2 := (hcont p (List.mem_cons_self p ps)).2.1
    exact le_max_of_le_left (by linarith)
  have hbuf : 0 ≤ bufferDegrees markers.length (!routes.isEmpty) (!polygons.isEmpty)
      (max ((rawBounds p ps).north - (rawBounds p ps).south)
        ((rawBounds p ps).east - (rawBounds p ps).west)) :=
    le_trans (mul_nonneg hspan0 (by norm_num)) (minBuffer_le_bufferDegrees _ _ _ _)
  simp only [calculateEnhancedBounds, hc]
  refine ⟨_, rfl, ?_, ?_, ?_, ?_⟩
  · exact max_le hs (by linarith)
  · exact le_min hn (by linarith)
  · exact max_le hw2 (by linarith)
  · exact le_min he (by linarith)

/-- Witness for C6: two in-range markers instantiate the amended claim. -/
theorem c6_witness :
    collectPoints [.latLonObj (.num 52.37) (.num 4.89), .latLonObj (.num 52.4) (.num 4.95)]
        [] [] = [⟨52.37, 4.89⟩, ⟨52.4, 4.95⟩] ∧
      ((∀ q ∈ [(⟨52.37, 4.89⟩ : Point), ⟨52.4, 4.95⟩],
        (rawBounds ⟨52.37, 4.89⟩ [⟨52.4, 4.95⟩]).south ≤ q.lat ∧
          q.lat ≤ (rawBounds ⟨52.37, 4.89⟩ [⟨52.4, 4.95⟩]).north ∧
          (rawBounds ⟨52.37, 4.89⟩ [⟨52.4, 4.95⟩]).west ≤ q.lon ∧
          q.lon ≤ (rawBounds ⟨52.37, 4.89⟩ [⟨52.4, 4.95⟩]).east) ∧
      ∃ r, calculateEnhancedBounds
          [.latLonObj (.num 52.37) (.num 4.89), .latLonObj (.num 52.4) (.num 4.95)]
          [] 800 600 [] = .ok r ∧
        r.bounds.south ≤ (rawBounds ⟨52.37, 4.89⟩ [⟨52.4, 4.95⟩]).south ∧
        (rawBounds ⟨52.37, 4.89⟩ [⟨52.4, 4.95⟩]).north ≤ r.bounds.north ∧
        r.bounds.west ≤ (rawBounds ⟨52.37, 4.89⟩ [⟨52.4, 4.95⟩]).west ∧
        (rawBounds ⟨52.37, 4.89⟩ [⟨52.4, 4.95⟩]).east ≤ r.bounds.east) := by
  have hc : collectPoints
      [.latLonObj (.num 52.37) (.num 4.89), .latLonObj (.num 52.4) (.num 4.95)] [] [] =
      [(⟨52.37, 4.89⟩ : Point), ⟨52.4, 4.95⟩] := by
    norm_num [collectPoints, extractCoordinates, validateCoordinate, List.filterMap_cons]
  have hv : ∀ q ∈ [(⟨52.37, 4.89⟩ : Point), ⟨52.4, 4.95⟩],
      -90 ≤ q.lat ∧ q.lat ≤ 90 ∧ -180 ≤ q.lon ∧ q.lon ≤ 180 := by
    intro q hq
    simp only [List.mem_cons, List.not_mem_nil, or_false] at hq
    rcases hq with rfl | rfl <;> norm_num
  exact ⟨hc, c6_amended _ _ _ 800 600 _ _ hc hv⟩

/-- C7 counterexample: for the valid center `(0, 180)`, radius 6,371,000 m
(angular radius 1) and 4 segments, the point at bearing π/2 has longitude
`180 + 180/π > 180`: rasterized longitudes are not confined to [-180, 180]. -/
theorem c7_counterexample :
    180 < ((generateCirclePoints 0 180 6371000 4).getD 1 ⟨0, 0⟩).lon := by
  have hpi := Real.pi_pos
  have hrange : List.range 4 = [0, 1, 2, 3] := rfl
  simp only [generateCirclePoints, hrange, List.map_cons, List.map_nil,
    List.getD_cons_succ, List.getD_cons_zero]
  have hangle : 2 * Real.pi * ((1:ℕ):ℝ) / ((4:ℕ):ℝ) = Real.pi / 2 := by
    push_cast
    ring
  rw [hangle]
  norm_num [Real.cos_pi_div_two, Real.sin_pi_div_two, Real.arcsin_zero]
  have hx : jsAtan2 (Real.sin 1) (Real.cos 1) = 1 := by
    have h1 : (1:ℝ) < Real.pi / 2 := by
      have := Real.pi_gt_three
      linarith
    rw [jsAtan2, if_pos Real.cos_one_pos, ← Real.tan_eq_sin_div_cos]
    exact Real.arctan_tan (by linarith) h1
  rw [hx]
  rw [lt_div_iff₀ hpi]
  nlinarith [hpi]

/-- C7 (amended): the rasterizer returns exactly `n` points, and every point
has latitude in [-90, 90] (longitudes may leave [-180, 180] near the
antimeridian). -/
theorem c7_amended (clat clon r : ℝ) (n : ℕ) (h1 : -90 ≤ clat) (h2 : clat ≤ 90)
    (h3 : -180 ≤ clon) (h4 : clon ≤ 180) (hr : 0 < r) (hn : 1 ≤ n) :
    (generateCirclePoints clat clon r n).length = n ∧
      ∀ p ∈ generateCirclePoints clat clon r n, -90 ≤ p.lat ∧ p.lat ≤ 90 := by
  have hpi := Real.pi_pos
  constructor
  · simp [generateCirclePoints]
  · intro p hp
    simp only [generateCirclePoints, List.mem_map] at hp
    obtain ⟨i, hi, rfl⟩ := hp
    constructor
    · have ha := Real.neg_pi_div_two_le_arcsin
        (Real.sin (clat * Real.pi / 180) * Real.cos (r / 6371000) +
          Real.cos (clat * Real.pi / 180) * Real.sin (r / 6371000) *
            Real.cos (2 * Real.pi * (i:ℝ) / (n:ℝ)))
      have hkey : (-90:ℝ) = -(Real.pi / 2) * 180 / Real.pi := by
        field_simp
        ring
      rw [hkey]
      exact (div_le_div_iff_of_pos_right hpi).mpr (mul_le_mul_of_nonneg_right ha (by norm_num))
    · have ha := Real.arcsin_le_pi_div_two
        (Real.sin (clat * Real.pi / 180) * Real.cos (r / 6371000) +
          Real.cos (clat * Real.pi / 180) * Real.sin (r / 6371000) *
            Real.cos (2 * Real.pi * (i:ℝ) / (n:ℝ)))
      have hkey : (90:ℝ) = Real.pi / 2 * 180 / Real.pi := by
        field_simp
        ring
      rw [hkey]
      exact (div_le_div_iff_of_pos_right hpi).mpr (mul_le_mul_of_nonneg_right ha (by norm_num))

/-- Witness for C7: a valid center, positive radius and 64 segments
instantiate the amended claim. -/
theorem c7_witness :
    (generateCirclePoints 0 0 100 64).length = 64 ∧
      ∀ p ∈ generateCirclePoints 0 0 100 64, -90 ≤ p.lat ∧ p.lat ≤ 90 :=
  c7_amended 0 0 100 64 (by norm_num) (by norm_num) (by norm_num) (by norm_num)
    (by norm_num) (by norm_num)

/-- The base buffer is positive whenever the marker count is not exactly one
and the span is positive. -/
lemma bufferBase_pos {mc : ℕ} (hmc : mc ≠ 1) {s : ℝ} (hs : 0 < s) :
    0 < bufferBase mc s := by
  unfold bufferBase
  split_ifs with h1 h2 h3 h4
  · exact absurd h1 hmc
  · norm_num
  · nlinarith
  · nlinarith
  · nlinarith

/-- C8 counterexample: for the valid bbox `[0, 0, 1, 90]` the padded north is
clamped to 90 — equal to the bbox north, not strictly greater: the padded
bounds do not strictly contain the bbox on every side. -/
theorem c8_counterexample :
    viewportNorth (computeViewport (some [0, 0, 1, 90]) [] [] [] 800 600) = some 90 ∧
      ¬ ((90:ℝ) < 90) := by
  refine ⟨?_, by norm_num⟩
  have hc : collectPoints [.latLonObj (.num 0) (.num 0), .latLonObj (.num 90) (.num 1)]
      [] [] = [(⟨0, 0⟩ : Point), ⟨90, 1⟩] := by
    norm_num [collectPoints, extractCoordinates, validateCoordinate, List.filterMap_cons]
  have hz : bboxPath [0, 0, 1, 90] 800 600 =
      .ok ⟨⟨90, -36, 37, -36⟩, [1/2, 27],
        calculateOptimalZoom ⟨90, -36, 37, -36⟩ 800 600 80⟩ := by
    norm_num [bboxPath, validateCoordinate, calculateEnhancedBounds, hc, rawBounds,
      bufferDegrees, bufferBase, min_def, max_def]
  simp only [computeViewport]
  rw [if_pos (by simp : ([(0:ℝ), 0, 1, 90]).length = 4), hz]
  norm_num [viewportNorth]

/-- C8 (amended): a valid explicit bbox is run through the padding calculator
as a 2-point feature set with a strictly positive buffer, so the resulting
bounds contain the bbox, strictly on every side whose coordinate is strictly
inside the world range; a side already at ±90/±180 stays there (clamping). -/
theorem c8_amended (w0 s0 e0 n0 w h : ℝ) (markers : List RawItem)
    (routes : List RouteItem) (polygons : List PolygonItem)
    (hw0 : -180 ≤ w0) (hw0b : w0 ≤ 180) (hs0 : -90 ≤ s0) (hs0b : s0 ≤ 90)
    (he0 : -180 ≤ e0) (he0b : e0 ≤ 180) (hn0 : -90 ≤ n0) (hn0b : n0 ≤ 90)
    (hwe : w0 < e0) (hsn : s0 < n0) :
    ∃ r, computeViewport (some [w0, s0, e0, n0]) markers routes polygons w h = .ok r ∧
      r.bounds.west ≤ w0 ∧ e0 ≤ r.bounds.east ∧ r.bounds.south ≤ s0 ∧ n0 ≤ r.bounds.north ∧
      (n0 < 90 → n0 < r.bounds.north) ∧ (-90 < s0 → r.bounds.south < s0) ∧
      (e0 < 180 → e0 < r.bounds.east) ∧ (-180 < w0 → r.bounds.west < w0) := by
  have hc : collectPoints [.latLonObj (.num s0) (.num w0), .latLonObj (.num n0) (.num e0)]
      [] [] = [⟨s0, w0⟩, ⟨n0, e0⟩] := by
    simp [collectPoints, List.filterMap_cons, extractCoordinates_inRange hs0 hs0b hw0 hw0b,
      extractCoordinates_inRange hn0 hn0b he0 he0b]
  have hb : bboxPath [w0, s0, e0, n0] w h =
      calculateEnhancedBounds
        [.latLonObj (.num s0) (.num w0), .latLonObj (.num n0) (.num e0)] [] w h [] := by
    simp only [bboxPath, validateCoordinate_lon hw0 hw0b, validateCoordinate_lat hs0 hs0b,
      validateCoordinate_lon he0 he0b, validateCoordinate_lat hn0 hn0b]
    rw [if_neg]
    push_neg
    exact ⟨hwe, hsn⟩
  have hrb : rawBounds ⟨s0, w0⟩ [⟨n0, e0⟩] = ⟨n0, s0, e0, w0⟩ := by
    simp only [rawBounds, List.map_cons, List.map_nil, List.foldl_cons, List.foldl_nil]
    rw [max_eq_right hsn.le, min_eq_left hsn.le, max_eq_right hwe.le, min_eq_left hwe.le]
  have hbufpos : 0 < bufferDegrees 2 false false (max (n0 - s0) (e0 - w0)) := by
    have hspan : 0 < max (n0 - s0) (e0 - w0) := lt_max_of_lt_left (by linarith)
    have hbase : 0 < bufferBase 2 (max (n0 - s0) (e0 - w0)) :=
      bufferBase_pos (by norm_num) hspan
    simp only [bufferDegrees, Bool.false_eq_true, if_false]
    rw [if_neg (by norm_num : ¬(3 < 2))]
    exact lt_max_of_lt_left hbase
  simp only [computeViewport]
  rw [if_pos (by simp : ([w0, s0, e0, n0]).length = 4), hb]
  simp only [calculateEnhancedBounds, hc, hrb, List.length_cons, List.length_nil,
    List.isEmpty_nil, Bool.not_true]
  refine ⟨_, rfl, ?_, ?_, ?_, ?_, ?_, ?_, ?_, ?_⟩
  · exact max_le hw0 (by linarith)
  · exact le_min he0b (by linarith)
  · exact max_le hs0 (by linarith)
  · exact le_min hn0b (by linarith)
  · exact fun hlt => lt_min hlt (by linarith)
  · exact fun hlt => max_lt hlt (by linarith)
  · exact fun hlt => lt_min hlt (by linarith)
  · exact fun hlt => max_lt hlt (by linarith)

/-- Witness for C8: the spec's scenario bbox `[4.85, 52.35, 4.95, 52.40]`
instantiates the amended claim. -/
theorem c8_witness :
    ∃ r, computeViewport (some [4.85, 52.35, 4.95, 52.40]) [] [] [] 800 600 = .ok r ∧
      r.bounds.west ≤ 4.85 ∧ (4.95:ℝ) ≤ r.bounds.east ∧ r.bounds.south ≤ 52.35 ∧
      (52.40:ℝ) ≤ r.bounds.north ∧
      ((52.40:ℝ) < 90 → (52.40:ℝ) < r.bounds.north) ∧
      ((-90:ℝ) < 52.35 → r.bounds.south < 52.35) ∧
      ((4.95:ℝ) < 180 → (4.95:ℝ) < r.bounds.east) ∧
      ((-180:ℝ) < 4.85 → r.bounds.west < 4.85) :=
  c8_amended 4.85 52.35 4.95 52.40 800 600 [] [] [] (by norm_num) (by norm_num)
    (by norm_num) (by norm_num) (by norm_num) (by norm_num) (by norm_num) (by norm_num)
    (by norm_num) (by norm_num)

end TomTomMcp
